import Mathlib

/-!
Verification of the flux registration lifecycle manager (Go sources under
`registration/`, `registry/`, `api/`) against its natural-language
specification.  The Go code is shallowly embedded: each Go function becomes a
Lean function over explicit inputs; the sources of nondeterminism (outcomes of
registry calls, which branch of a Go `select` fires, cancellation of the outer
context) are passed in as oracles, and the observable behaviour (registry
calls issued, waits performed, log/metric emissions, loop exit) is returned as
an explicit trace.
-/

namespace Flux

/-- Embedding of `api.ServiceInstance` (src/api/service_instance.go). -/
structure ServiceInstance where
  ID : String
  ServiceName : String
  Host : String
  Port : Int
  URL : String
  HealthPath : String
deriving DecidableEq, Repr

/-- Embedding of `registration.Config` (src/registration/registrar.go).
Durations (`time.Duration`, a Go int64 nanosecond count) are embedded as
`Int`; `MaxRetries` (a Go `int`) as `Int`. -/
structure Config where
  RegistryURL : String
  RegistryType : String
  HeartbeatInterval : Int
  CallTimeout : Int
  MaxRetries : Int
  RetryDelay : Int
deriving DecidableEq, Repr

/-- Two's-complement wrap of an integer into the signed 64-bit range,
modelling Go's int64 arithmetic. -/
def wrap64 (x : Int) : Int :=
  (x + 2 ^ 63) % 2 ^ 64 - 2 ^ 63

/-- Go expression `1 << i` at type `int` (64-bit): `2 ^ i` for `i < 63`,
the minimal int64 for `i = 63`, and `0` for `i ≥ 64` (Go shifts past the
width produce zero). -/
def goShl1 (i : Nat) : Int :=
  if i < 64 then wrap64 (2 ^ i) else 0

/-- The backoff duration the source computes for attempt `i`:
`r.config.RetryDelay * time.Duration(1 << i)`, with int64 wraparound. -/
def backoff (delay : Int) (i : Nat) : Int :=
  wrap64 (delay * goShl1 i)

/-- Observable events of the bounded-retry registration protocol: a register
call for attempt `i`, or a completed inter-attempt wait of duration `d`. -/
inductive Event where
  | call (i : Nat)
  | wait (d : Int)
deriving DecidableEq, Repr

/-- Terminal outcome of the bounded-retry registration protocol.  In the
source these are: `nil`, the "failed to register ... after %d retries" error,
and the "aborted retry ... due to context cancellation" error (which wraps
`ctx.Err()` and is thereby distinguishable from exhaustion). -/
inductive Outcome where
  | success
  | exhausted
  | cancelled
deriving DecidableEq, Repr

/-- The `for i := 0; i < r.config.MaxRetries; i++` loop body of
`registerWithRetry` (src/registration/registrar.go).  `register i` is the
oracle for the result of the register call of attempt `i` (`true` = `nil`
error); `cancelAt i` tells whether, in the `select` following a failed
attempt `i`, the `ctx.Done()` branch fires before the `time.After` branch.
`i` is the current attempt index, `fuel` the remaining number of iterations.
On a failed attempt the source always enters the `select`; when the timer
fires a full wait of `backoff delay i` has elapsed and the loop continues,
and this happens after every failed attempt, the last one included. -/
def registerLoop (register cancelAt : Nat → Bool) (delay : Int) :
    Nat → Nat → List Event × Outcome
  | _, 0 => ([], Outcome.exhausted)
  | i, fuel + 1 =>
    if register i then
      ([Event.call i], Outcome.success)
    else if cancelAt i then
      ([Event.call i], Outcome.cancelled)
    else
      let r := registerLoop register cancelAt delay (i + 1) fuel
      (Event.call i :: Event.wait (backoff delay i) :: r.1, r.2)

/-- Embedding of `(*Registrar).registerWithRetry`: runs the attempt loop
`MaxRetries` times (a non-positive `MaxRetries` yields zero iterations, as
the Go `for` condition `i < r.config.MaxRetries` fails at once). -/
def registerWithRetry (cfg : Config) (register cancelAt : Nat → Bool) :
    List Event × Outcome :=
  registerLoop register cancelAt cfg.RetryDelay 0 cfg.MaxRetries.toNat

/-- Number of register calls in a protocol trace. -/
def countCalls (tr : List Event) : Nat :=
  tr.countP fun e => match e with | Event.call _ => true | _ => false

/-- The completed waits of a protocol trace, in order. -/
def waitsOf (tr : List Event) : List Int :=
  tr.filterMap fun e => match e with | Event.wait d => some d | _ => none

/-- The trace produced by `fuel` consecutive failed attempts starting at
attempt index `i`, each followed by its completed backoff wait. -/
def failTrace (delay : Int) : Nat → Nat → List Event
  | _, 0 => []
  | i, fuel + 1 => Event.call i :: Event.wait (backoff delay i) :: failTrace delay (i + 1) fuel

/-- Which branch of the `select` in one iteration of `runHeartbeatLoop`
fires: a ticker tick (carrying the heartbeat-call result oracle and, for a
failed heartbeat, the oracles fed to the re-registration protocol), the
explicit stop signal (`stopHeartbeat` closed), or `ctx.Done()`. -/
inductive LoopBranch where
  | tick (hbOk : Bool) (register cancelAt : Nat → Bool)
  | stopSignal
  | ctxDone

/-- Observable events of one iteration of the heartbeat loop. -/
inductive LoopEvent where
  | heartbeat (ok : Bool)
  | reRegCall (i : Nat)
  | reRegWait (d : Int)
  | logStopped
  | logCtxCancelled
deriving DecidableEq, Repr

/-- Lifts a registration-protocol event into a heartbeat-loop event. -/
def liftEvent : Event → LoopEvent
  | Event.call i => LoopEvent.reRegCall i
  | Event.wait d => LoopEvent.reRegWait d

/-- One iteration of `runHeartbeatLoop` (src/registration/registrar.go):
returns the events the iteration emits together with `true` when the
iteration exits the loop (a `return` in the source).  On a failed heartbeat
the source invokes the full `registerWithRetry` protocol and continues the
loop whatever that protocol returns.  The `stopHeartbeat` branch logs and
returns; the `ctx.Done()` branch logs "stopped due to context cancellation"
but, in the source as written, falls through without a `return`, so the
iteration does not exit the loop. -/
def runHeartbeatIter (cfg : Config) : LoopBranch → List LoopEvent × Bool
  | LoopBranch.tick true _ _ => ([LoopEvent.heartbeat true], false)
  | LoopBranch.tick false register cancelAt =>
      let r := registerWithRetry cfg register cancelAt
      (LoopEvent.heartbeat false :: r.1.map liftEvent, false)
  | LoopBranch.stopSignal => ([LoopEvent.logStopped], true)
  | LoopBranch.ctxDone => ([LoopEvent.logCtxCancelled], false)

/-- Runs the heartbeat loop over a resolved schedule of `select` branches,
stopping as soon as an iteration exits; returns the accumulated events and
whether the loop has exited by the end of the schedule. -/
def runHeartbeatLoop (cfg : Config) : List LoopBranch → List LoopEvent × Bool
  | [] => ([], false)
  | b :: bs =>
    let r := runHeartbeatIter cfg b
    if r.2 then (r.1, true)
    else
      let rest := runHeartbeatLoop cfg bs
      (r.1 ++ rest.1, rest.2)

/-- Observable actions of `(*Registrar).Start`. -/
inductive StartEvent where
  | regAttempt (e : Event)
  | gaugeSet (v : Nat)
  | launchLoop
deriving DecidableEq, Repr

/-- Embedding of `(*Registrar).Start` (src/registration/registrar.go): it
synchronously runs `registerWithRetry`, sets the state gauge to 1 on success
and 0 otherwise, and then — on both paths — does `wg.Add(1)` and launches
`runHeartbeatLoop` as a goroutine. -/
def Start (cfg : Config) (register cancelAt : Nat → Bool) : List StartEvent :=
  let r := registerWithRetry cfg register cancelAt
  r.1.map StartEvent.regAttempt
    ++ [if r.2 = Outcome.success then StartEvent.gaugeSet 1 else StartEvent.gaugeSet 0]
    ++ [StartEvent.launchLoop]

/-- Observable actions of `(*Registrar).Stop`, in source order. -/
inductive StopAction where
  | signalStop
  | waitLoopExit
  | deregisterCall
  | logDeregFailed
  | logDeregOk
  | closeTransport
  | logCloseFailed
  | gaugeZero
  | logStopped
deriving DecidableEq, Repr

/-- Embedding of `(*Registrar).Stop` (src/registration/registrar.go):
`close(r.stopHeartbeat)`, `r.wg.Wait()`, one `Deregister` call bounded by
`CallTimeout` whose error is only logged, one `Close` of the client whose
error is only logged, then the gauge reset and the final log.  `deregErr`
and `closeErr` are the oracles for the two call results (`true` = non-nil
error). -/
def Stop (deregErr closeErr : Bool) : List StopAction :=
  [StopAction.signalStop, StopAction.waitLoopExit, StopAction.deregisterCall]
    ++ (if deregErr then [StopAction.logDeregFailed] else [StopAction.logDeregOk])
    ++ [StopAction.closeTransport]
    ++ (if closeErr then [StopAction.logCloseFailed] else [])
    ++ [StopAction.gaugeZero, StopAction.logStopped]

/-- The gRPC connectivity states (`google.golang.org/grpc/connectivity`). -/
inductive ConnState where
  | idle
  | connecting
  | ready
  | transientFailure
  | shutdown
deriving DecidableEq, Repr

/-- Model of the external gRPC channel (`*grpc.ClientConn`) held by
`grpcClient`: `connClose` embeds the library's `(*ClientConn).Close`, which
moves the channel to the `Shutdown` state and returns a non-nil error only
when the channel was already shut down (the library's double-close error). -/
structure GrpcConn where
  state : ConnState
deriving DecidableEq, Repr

/-- Close of the underlying gRPC channel: returns the updated channel and
the error result (`none` = nil error). -/
def connClose (c : GrpcConn) : GrpcConn × Option String :=
  if c.state = ConnState.shutdown then
    (c, some "grpc: the client connection is closing")
  else
    (GrpcConn.mk ConnState.shutdown, none)

/-- State of a `grpcClient` as far as `Close` is concerned: its channel,
`none` embedding a nil `conn` field. -/
structure GrpcClientState where
  conn : Option GrpcConn
deriving DecidableEq, Repr

/-- Embedding of `(*grpcClient).Close` (src/registry/grpc_client.go): if the
channel is non-nil and not already `Shutdown` it returns the channel's own
`Close` result; otherwise it returns nil. -/
def grpcClose (c : GrpcClientState) : GrpcClientState × Option String :=
  match c.conn with
  | none => (c, none)
  | some conn =>
    if conn.state ≠ ConnState.shutdown then
      let r := connClose conn
      (GrpcClientState.mk (some r.1), r.2)
    else (c, none)

/-- The error results of `n` successive `Close` calls on a `grpcClient`
starting from state `c`. -/
def grpcCloseN : Nat → GrpcClientState → List (Option String)
  | 0, _ => []
  | n + 1, c =>
    let r := grpcClose c
    r.2 :: grpcCloseN n r.1

/-- Embedding of `(*httpClient).Close` (src/registry/http_client.go): the
body is `return nil`, independent of any state. -/
def httpClose : Option String := none

/-- The error results of `n` successive `Close` calls on an `httpClient`. -/
def httpCloseN (n : Nat) : List (Option String) :=
  List.replicate n httpClose

/-- Which transport `NewRegistrar` bound. -/
inductive ClientKind where
  | http
  | grpc
deriving DecidableEq, Repr

/-- The construction errors `NewRegistrar` can return, one per `return nil,
fmt.Errorf(...)` site in the source. -/
inductive RegError where
  | nilConfig
  | emptyRegistryURL
  | nonPositiveHeartbeatInterval
  | nonPositiveCallTimeout
  | negativeMaxRetries
  | negativeRetryDelay
  | grpcClientCreationFailed
  | unsupportedRegistryType
deriving DecidableEq, Repr

/-- A constructed `Registrar` (src/registration/registrar.go): its instance,
bound client kind and validated config. -/
structure Registrar where
  inst : ServiceInstance
  clientKind : ClientKind
  config : Config
deriving DecidableEq, Repr

/-- Embedding of `NewRegistrar` (src/registration/registrar.go).  `cfg` is
`none` for a nil `*Config`.  `grpcNewOk` is the oracle for whether the
external `grpc.NewClient` call succeeds for the configured address (the
HTTP constructor `NewHTTPClient` cannot fail).  Checks are in source
order. -/
def NewRegistrar (inst : ServiceInstance) (cfg : Option Config) (grpcNewOk : Bool) :
    Except RegError Registrar :=
  match cfg with
  | none => Except.error RegError.nilConfig
  | some c =>
    if c.RegistryURL = "" then Except.error RegError.emptyRegistryURL
    else if c.HeartbeatInterval ≤ 0 then Except.error RegError.nonPositiveHeartbeatInterval
    else if c.CallTimeout ≤ 0 then Except.error RegError.nonPositiveCallTimeout
    else if c.MaxRetries < 0 then Except.error RegError.negativeMaxRetries
    else if c.RetryDelay < 0 then Except.error RegError.negativeRetryDelay
    else if c.RegistryType = "http" then Except.ok (Registrar.mk inst ClientKind.http c)
    else if c.RegistryType = "grpc" then
      if grpcNewOk then Except.ok (Registrar.mk inst ClientKind.grpc c)
      else Except.error RegError.grpcClientCreationFailed
    else Except.error RegError.unsupportedRegistryType

/-- Whether construction returned a usable `Registrar`. -/
def regOk : Except RegError Registrar → Bool
  | Except.ok _ => true
  | Except.error _ => false

/-- Sample instance descriptor used for concrete evaluations. -/
def sampleInst : ServiceInstance :=
  ServiceInstance.mk "id-1" "svc" "localhost" 8080 "http://localhost:8080" "/health"

/-- Sample configuration with the given `MaxRetries` and `RetryDelay`. -/
def mkConfig (mr rd : Int) : Config :=
  Config.mk "http://registry:8500" "http" 10 5 mr rd

/-- Sample configuration whose `RegistryURL` is the empty string but which
satisfies every numeric invariant and names a recognized transport. -/
def cfgEmptyURL : Config :=
  Config.mk "" "http" 10 5 3 1

/-- Sample configuration violating the `HeartbeatInterval > 0` invariant. -/
def cfgBadHeartbeat : Config :=
  Config.mk "http://registry:8500" "http" 0 5 3 1

/-! ### Helper lemmas -/

lemma wrap64_eq_self (x : Int) (h1 : -2 ^ 63 ≤ x) (h2 : x < 2 ^ 63) : wrap64 x = x := by
  unfold wrap64
  rw [Int.emod_eq_of_lt (by omega) (by omega)]
  omega

lemma goShl1_of_le (i : Nat) (hi : i ≤ 62) : goShl1 i = 2 ^ i := by
  unfold goShl1
  have h64 : i < 64 := by omega
  have hle : (2 : Int) ^ i ≤ 2 ^ 62 := pow_le_pow_right₀ (by norm_num) hi
  have hlt : (2 : Int) ^ i < 2 ^ 63 := lt_of_le_of_lt hle (by norm_num)
  have hpos : (0 : Int) ≤ 2 ^ i := pow_nonneg (by norm_num) i
  simp only [h64, if_true]
  exact wrap64_eq_self _ (by omega) hlt

lemma backoff_small (d : Int) (i : Nat) (hi : i ≤ 62) (hd : 0 ≤ d)
    (hlt : d * 2 ^ i < 2 ^ 63) : backoff d i = d * 2 ^ i := by
  unfold backoff
  rw [goShl1_of_le i hi]
  have hpos : (0 : Int) ≤ d * 2 ^ i := mul_nonneg hd (pow_nonneg (by norm_num) i)
  exact wrap64_eq_self _ (by omega) hlt

lemma registerLoop_all_fail (register cancelAt : Nat → Bool) (d : Int)
    (hreg : ∀ j, register j = false) (hcan : ∀ j, cancelAt j = false) :
    ∀ (fuel i : Nat),
      registerLoop register cancelAt d i fuel = (failTrace d i fuel, Outcome.exhausted) := by
  intro fuel
  induction fuel with
  | zero => intro i; rfl
  | succ n ih => intro i; simp [registerLoop, hreg, hcan, failTrace, ih]

lemma countCalls_failTrace (d : Int) :
    ∀ (fuel i : Nat), countCalls (failTrace d i fuel) = fuel := by
  intro fuel
  induction fuel with
  | zero => intro i; rfl
  | succ n ih =>
    intro i
    simp [failTrace, countCalls, List.countP_cons] at ih ⊢
    exact ih (i + 1)

lemma waitsOf_failTrace (d : Int) :
    ∀ (fuel i : Nat),
      waitsOf (failTrace d i fuel) = (List.range fuel).map (fun k => backoff d (i + k)) := by
  intro fuel
  induction fuel with
  | zero => intro i; rfl
  | succ n ih =>
    intro i
    have hstep : waitsOf (failTrace d i (n + 1)) =
        backoff d i :: waitsOf (failTrace d (i + 1) n) := by
      simp [failTrace, waitsOf]
    rw [hstep, ih (i + 1), List.range_succ_eq_map]
    simp only [List.map_cons, Nat.add_zero, List.map_map]
    congr 1
    simp only [List.map_inj_left, Function.comp_apply]
    intro a _
    congr 1
    omega

lemma countCalls_append (a b : List Event) :
    countCalls (a ++ b) = countCalls a + countCalls b := by
  simp [countCalls, List.countP_append]

lemma registerLoop_cancel (register cancelAt : Nat → Bool) (d : Int) :
    ∀ (i s fuel : Nat), i < fuel →
      (∀ j, j ≤ i → register (s + j) = false) →
      (∀ j, j < i → cancelAt (s + j) = false) →
      cancelAt (s + i) = true →
      registerLoop register cancelAt d s fuel =
        (failTrace d s i ++ [Event.call (s + i)], Outcome.cancelled) := by
  intro i
  induction i with
  | zero =>
    intro s fuel hfuel hreg hcan hc
    match fuel, hfuel with
    | fuel + 1, _ =>
      have h0 : register s = false := by simpa using hreg 0 (Nat.le_refl 0)
      have h1 : cancelAt s = true := by simpa using hc
      simp [registerLoop, h0, h1, failTrace]
  | succ n ih =>
    intro s fuel hfuel hreg hcan hc
    match fuel, hfuel with
    | fuel + 1, hfuel =>
      have h0 : register s = false := by simpa using hreg 0 (Nat.zero_le _)
      have h1 : cancelAt s = false := by simpa using hcan 0 (Nat.succ_pos n)
      have harg : s + 1 + n = s + (n + 1) := by omega
      have ihs := ih (s + 1) fuel (by omega)
        (fun j hj => by
          have h := hreg (j + 1) (by omega)
          have : s + (j + 1) = s + 1 + j := by omega
          rwa [this] at h)
        (fun j hj => by
          have h := hcan (j + 1) (by omega)
          have : s + (j + 1) = s + 1 + j := by omega
          rwa [this] at h)
        (by rw [harg]; exact hc)
      simp only [registerLoop, h0, h1, Bool.false_eq_true, if_false, ihs, failTrace]
      rw [harg]
      simp

lemma grpcClose_snd_eq_none (c : GrpcClientState) : (grpcClose c).2 = none := by
  cases c with
  | mk conn =>
    cases conn with
    | none => rfl
    | some g =>
      by_cases h : g.state = ConnState.shutdown
      · simp [grpcClose, h]
      · simp [grpcClose, h, connClose]

/-! ### Claims -/

/-- C1 counterexample: with `maxRetries = 0` and a register client that
always fails, `registerWithRetry` makes zero register calls, not the single
call the claim asserts — the Go loop condition `i < 0` fails at once. -/
theorem C1_counterexample :
    (mkConfig 0 1).MaxRetries = 0 ∧
    countCalls (registerWithRetry (mkConfig 0 1) (fun _ => false) (fun _ => false)).1 = 0 ∧
    countCalls (registerWithRetry (mkConfig 0 1) (fun _ => false) (fun _ => false)).1 ≠ 1 := by
  decide

/-- C1 (amended): for every configuration with `maxRetries = 0`, a single
invocation of `registerWithRetry` makes no register call at all and
terminates immediately with the retries-exhausted failure, with no wait and
no attempt. -/
theorem C1_amended_zero_attempts (cfg : Config) (register cancelAt : Nat → Bool)
    (h : cfg.MaxRetries = 0) :
    registerWithRetry cfg register cancelAt = ([], Outcome.exhausted) := by
  unfold registerWithRetry
  rw [h]
  rfl

/-- C1 witness: the amended theorem applied at a concrete configuration with
`maxRetries = 0`. -/
theorem C1_amended_zero_attempts_witness :
    (mkConfig 0 1).MaxRetries = 0 ∧
    registerWithRetry (mkConfig 0 1) (fun _ => false) (fun _ => false) =
      ([], Outcome.exhausted) :=
  ⟨rfl, C1_amended_zero_attempts (mkConfig 0 1) (fun _ => false) (fun _ => false) rfl⟩

/-- C2 counterexample: with `maxRetries = 1` and a client failing on every
attempt, there is exactly one call, but a completed backoff wait of
`retryBaseDelay × 2^0` follows the final (only) failed call — the claim
asserts there is no wait after the `n`th (final) failed call, which for
`n = 1` means no wait at all. -/
theorem C2_counterexample :
    (mkConfig 1 5).MaxRetries = 1 ∧
    registerWithRetry (mkConfig 1 5) (fun _ => false) (fun _ => false) =
      ([Event.call 0, Event.wait 5], Outcome.exhausted) ∧
    waitsOf (registerWithRetry (mkConfig 1 5) (fun _ => false) (fun _ => false)).1 ≠ [] := by
  decide

/-- C2 (amended): for every `maxRetries = n ≥ 1` and every register client
that fails on all attempts, `registerWithRetry` makes exactly `n` register
calls, completes a wait of `retryBaseDelay × 2^i` (computed by the source
with 64-bit wraparound) after every failed call `i = 0, …, n−1` — the final
failed call included — and returns the retries-exhausted error; when the
products do not overflow the waits are exactly
`retryBaseDelay × 2^0, …, × 2^(n−1)`. -/
theorem C2_amended_all_attempts_fail (cfg : Config) (register cancelAt : Nat → Bool)
    (n : Nat) (hn : 1 ≤ n) (hmr : cfg.MaxRetries = (n : Int))
    (hreg : ∀ j, register j = false) (hcan : ∀ j, cancelAt j = false) :
    countCalls (registerWithRetry cfg register cancelAt).1 = n ∧
    waitsOf (registerWithRetry cfg register cancelAt).1 =
      (List.range n).map (fun i => backoff cfg.RetryDelay i) ∧
    (registerWithRetry cfg register cancelAt).2 = Outcome.exhausted ∧
    (0 ≤ cfg.RetryDelay → cfg.RetryDelay * 2 ^ (n - 1) < 2 ^ 63 → n ≤ 63 →
      waitsOf (registerWithRetry cfg register cancelAt).1 =
        (List.range n).map (fun i => cfg.RetryDelay * 2 ^ i)) := by
  have hto : cfg.MaxRetries.toNat = n := by rw [hmr]; exact Int.toNat_natCast n
  have key : registerWithRetry cfg register cancelAt =
      (failTrace cfg.RetryDelay 0 n, Outcome.exhausted) := by
    unfold registerWithRetry
    rw [hto]
    exact registerLoop_all_fail register cancelAt cfg.RetryDelay hreg hcan n 0
  have hwaits : waitsOf (registerWithRetry cfg register cancelAt).1 =
      (List.range n).map (fun i => backoff cfg.RetryDelay i) := by
    rw [key]
    have := waitsOf_failTrace cfg.RetryDelay n 0
    simpa using this
  refine ⟨?_, hwaits, ?_, ?_⟩
  · rw [key]
    exact countCalls_failTrace cfg.RetryDelay n 0
  · rw [key]
  · intro hd hov h63
    rw [hwaits]
    apply List.map_congr_left
    intro i hi
    have hin : i < n := List.mem_range.mp hi
    have hpow : (2 : Int) ^ i ≤ 2 ^ (n - 1) := pow_le_pow_right₀ (by norm_num) (by omega)
    have hmul : cfg.RetryDelay * 2 ^ i ≤ cfg.RetryDelay * 2 ^ (n - 1) :=
      mul_le_mul_of_nonneg_left hpow hd
    exact backoff_small cfg.RetryDelay i (by omega) hd (lt_of_le_of_lt hmul hov)

/-- C2 witness: the amended theorem applied at `n = 2`, `retryBaseDelay = 1`,
with a client failing on all attempts and no cancellation. -/
theorem C2_amended_all_attempts_fail_witness :
    countCalls (registerWithRetry (mkConfig 2 1) (fun _ => false) (fun _ => false)).1 = 2 ∧
    waitsOf (registerWithRetry (mkConfig 2 1) (fun _ => false) (fun _ => false)).1 =
      (List.range 2).map (fun i => backoff (mkConfig 2 1).RetryDelay i) ∧
    (registerWithRetry (mkConfig 2 1) (fun _ => false) (fun _ => false)).2 =
      Outcome.exhausted ∧
    (0 ≤ (mkConfig 2 1).RetryDelay → (mkConfig 2 1).RetryDelay * 2 ^ (2 - 1) < 2 ^ 63 →
      2 ≤ 63 →
      waitsOf (registerWithRetry (mkConfig 2 1) (fun _ => false) (fun _ => false)).1 =
        (List.range 2).map (fun i => (mkConfig 2 1).RetryDelay * 2 ^ i)) :=
  C2_amended_all_attempts_fail (mkConfig 2 1) (fun _ => false) (fun _ => false) 2
    (by decide) rfl (fun _ => rfl) (fun _ => rfl)

/-- C3 (code bug): the `ctx.Done()` branch of `runHeartbeatLoop` logs
"stopped due to context cancellation" but, unlike the `stopHeartbeat`
branch, has no `return`, so observing cancellation does not exit the loop:
after the cancellation branch fires, a later tick still issues a heartbeat
call.  Evaluated concretely: the cancellation iteration reports no exit, the
explicit-stop iteration does exit, and a schedule in which cancellation is
observed and then a tick fires still performs a heartbeat call with the loop
not exited. -/
theorem C3_ctxDone_does_not_exit :
    (runHeartbeatIter (mkConfig 5 1) LoopBranch.ctxDone).2 = false ∧
    (runHeartbeatIter (mkConfig 5 1) LoopBranch.stopSignal).2 = true ∧
    runHeartbeatLoop (mkConfig 5 1)
        [LoopBranch.ctxDone, LoopBranch.tick true (fun _ => false) (fun _ => false)] =
      ([LoopEvent.logCtxCancelled, LoopEvent.heartbeat true], false) := by
  decide

/-- C4: for both transports, Close is idempotent and never returns an error:
any number of successive Close calls on a `grpcClient` — from any starting
state, including an already-shut-down or nil channel — all return nil, and
every Close call on an `httpClient` returns nil. -/
theorem C4_close_idempotent_no_error :
    (∀ (c : GrpcClientState) (n : Nat), grpcCloseN n c = List.replicate n none) ∧
    (∀ n : Nat, httpCloseN n = List.replicate n none) := by
  constructor
  · intro c n
    induction n generalizing c with
    | zero => rfl
    | succ m ih =>
      show (grpcClose c).2 :: grpcCloseN m (grpcClose c).1 = none :: List.replicate m none
      rw [grpcClose_snd_eq_none, ih]
  · intro n
    rfl

/-- C5: if the outer context is cancelled during the inter-attempt wait that
follows failed attempt `i` (all earlier waits having completed), the
protocol returns the cancellation outcome — distinguishable from the
retries-exhausted outcome — and its trace is exactly the `i` completed
fail-and-wait pairs followed by the final call: `i + 1` register calls in
total and no call or wait after cancellation is observed. -/
theorem C5_cancellation_during_wait (cfg : Config) (register cancelAt : Nat → Bool)
    (i : Nat) (hi : (i : Int) < cfg.MaxRetries)
    (hreg : ∀ j, j ≤ i → register j = false)
    (hcan : ∀ j, j < i → cancelAt j = false)
    (hc : cancelAt i = true) :
    registerWithRetry cfg register cancelAt =
      (failTrace cfg.RetryDelay 0 i ++ [Event.call i], Outcome.cancelled) ∧
    countCalls (registerWithRetry cfg register cancelAt).1 = i + 1 ∧
    (registerWithRetry cfg register cancelAt).2 ≠ Outcome.exhausted := by
  have hfuel : i < cfg.MaxRetries.toNat := by omega
  have key := registerLoop_cancel register cancelAt cfg.RetryDelay i 0 cfg.MaxRetries.toNat
    hfuel (fun j hj => by simpa using hreg j hj) (fun j hj => by simpa using hcan j hj)
    (by simpa using hc)
  have keyr : registerWithRetry cfg register cancelAt =
      (failTrace cfg.RetryDelay 0 i ++ [Event.call i], Outcome.cancelled) := by
    unfold registerWithRetry
    simpa using key
  refine ⟨keyr, ?_, ?_⟩
  · rw [keyr]
    show countCalls (failTrace cfg.RetryDelay 0 i ++ [Event.call i]) = i + 1
    rw [countCalls_append, countCalls_failTrace]
    rfl
  · rw [keyr]
    simp

/-- C5 witness: the theorem applied at `maxRetries = 3` with cancellation
observed during the wait after failed attempt 1. -/
theorem C5_cancellation_during_wait_witness :
    registerWithRetry (mkConfig 3 1) (fun _ => false) (fun j => j == 1) =
      (failTrace (mkConfig 3 1).RetryDelay 0 1 ++ [Event.call 1], Outcome.cancelled) ∧
    countCalls (registerWithRetry (mkConfig 3 1) (fun _ => false) (fun j => j == 1)).1 =
      1 + 1 ∧
    (registerWithRetry (mkConfig 3 1) (fun _ => false) (fun j => j == 1)).2 ≠
      Outcome.exhausted :=
  C5_cancellation_during_wait (mkConfig 3 1) (fun _ => false) (fun j => j == 1) 1
    (by decide) (fun _ _ => rfl)
    (fun j hj => by
      have hz : j = 0 := by omega
      rw [hz]
      rfl)
    rfl

/-- C6: for every outcome of the deregister and close calls, `Stop` signals
the loop, then waits for the loop task to exit, and only then issues its
single deregister call, followed by the single transport release; a failed
deregistration only changes which log is emitted, and `Stop` still runs to
completion, transport release included. -/
theorem C6_stop_sequencing :
    ∀ (deregErr closeErr : Bool),
      (Stop deregErr closeErr).count StopAction.signalStop = 1 ∧
      (Stop deregErr closeErr).count StopAction.waitLoopExit = 1 ∧
      (Stop deregErr closeErr).count StopAction.deregisterCall = 1 ∧
      (Stop deregErr closeErr).count StopAction.closeTransport = 1 ∧
      (Stop deregErr closeErr).indexOf StopAction.signalStop <
        (Stop deregErr closeErr).indexOf StopAction.waitLoopExit ∧
      (Stop deregErr closeErr).indexOf StopAction.waitLoopExit <
        (Stop deregErr closeErr).indexOf StopAction.deregisterCall ∧
      (Stop deregErr closeErr).indexOf StopAction.deregisterCall <
        (Stop deregErr closeErr).indexOf StopAction.closeTransport ∧
      (Stop deregErr closeErr).getLast? = some StopAction.logStopped := by
  decide

/-- C7: in the heartbeat loop, a tick whose heartbeat call fails triggers
exactly the full bounded-retry registration protocol — the trace that
follows the failed heartbeat is the trace of the same `registerWithRetry`
used for initial registration, whatever its oracles — and a tick iteration
never exits the loop, regardless of the heartbeat or re-registration
outcome. -/
theorem C7_heartbeat_failure_full_retry (cfg : Config)
    (register cancelAt : Nat → Bool) (hbOk : Bool) :
    (runHeartbeatIter cfg (LoopBranch.tick hbOk register cancelAt)).2 = false ∧
    (runHeartbeatIter cfg (LoopBranch.tick false register cancelAt)).1 =
      LoopEvent.heartbeat false ::
        (registerWithRetry cfg register cancelAt).1.map liftEvent ∧
    (runHeartbeatIter cfg (LoopBranch.tick true register cancelAt)).1 =
      [LoopEvent.heartbeat true] := by
  refine ⟨?_, rfl, rfl⟩
  cases hbOk <;> rfl

/-- C8: `Start` always performs the initial `registerWithRetry` attempt
first and then launches the heartbeat loop exactly once, as its final
action, on both the success and the failure path of initial
registration. -/
theorem C8_start_launches_loop (cfg : Config) (register cancelAt : Nat → Bool) :
    Start cfg register cancelAt =
      (registerWithRetry cfg register cancelAt).1.map StartEvent.regAttempt
        ++ [if (registerWithRetry cfg register cancelAt).2 = Outcome.success
            then StartEvent.gaugeSet 1 else StartEvent.gaugeSet 0]
        ++ [StartEvent.launchLoop] ∧
    (Start cfg register cancelAt).getLast? = some StartEvent.launchLoop ∧
    (Start cfg register cancelAt).count StartEvent.launchLoop = 1 := by
  refine ⟨rfl, ?_, ?_⟩
  · show (((registerWithRetry cfg register cancelAt).1.map StartEvent.regAttempt
        ++ [if (registerWithRetry cfg register cancelAt).2 = Outcome.success
            then StartEvent.gaugeSet 1 else StartEvent.gaugeSet 0])
        ++ [StartEvent.launchLoop]).getLast? = some StartEvent.launchLoop
    rw [List.getLast?_concat]
  · show (((registerWithRetry cfg register cancelAt).1.map StartEvent.regAttempt
        ++ [if (registerWithRetry cfg register cancelAt).2 = Outcome.success
            then StartEvent.gaugeSet 1 else StartEvent.gaugeSet 0])
        ++ [StartEvent.launchLoop]).count StartEvent.launchLoop = 1
    rw [List.count_append, List.count_append]
    have h1 : ((registerWithRetry cfg register cancelAt).1.map
        StartEvent.regAttempt).count StartEvent.launchLoop = 0 := by
      rw [List.count_eq_zero]
      intro hmem
      rcases List.mem_map.mp hmem with ⟨e, _, he⟩
      cases he
    have h2 : List.count StartEvent.launchLoop
        [if (registerWithRetry cfg register cancelAt).2 = Outcome.success
         then StartEvent.gaugeSet 1 else StartEvent.gaugeSet 0] = 0 := by
      split <;> decide
    rw [h1, h2]
    rfl

/-- C9 counterexample: a configuration with an empty `RegistryURL` satisfies
every invariant the claim lists (positive intervals and timeout, non-negative
retries and delay, a recognized transport kind whose construction succeeds),
yet `NewRegistrar` rejects it — so "when all these invariants hold and the
transport can be instantiated, construction returns a usable Registrar" is
false as stated. -/
theorem C9_counterexample :
    0 < cfgEmptyURL.HeartbeatInterval ∧
    0 < cfgEmptyURL.CallTimeout ∧
    0 ≤ cfgEmptyURL.MaxRetries ∧
    0 ≤ cfgEmptyURL.RetryDelay ∧
    cfgEmptyURL.RegistryType = "http" ∧
    regOk (NewRegistrar sampleInst (some cfgEmptyURL) true) = false := by
  decide

/-- C9 (amended): `NewRegistrar` fails with an error whenever
`HeartbeatInterval ≤ 0`, `CallTimeout ≤ 0`, `MaxRetries < 0`,
`RetryDelay < 0`, or the transport kind is not one of "http" and "grpc";
and when, in addition to all these invariants holding, the configuration is
non-nil, its registry address is non-empty, and the named transport can be
instantiated, construction returns a usable `Registrar`. -/
theorem C9_amended_construction_validation (inst : ServiceInstance) (cfg : Config)
    (grpcNewOk : Bool) :
    ((cfg.HeartbeatInterval ≤ 0 ∨ cfg.CallTimeout ≤ 0 ∨ cfg.MaxRetries < 0 ∨
        cfg.RetryDelay < 0 ∨ (cfg.RegistryType ≠ "http" ∧ cfg.RegistryType ≠ "grpc")) →
      regOk (NewRegistrar inst (some cfg) grpcNewOk) = false) ∧
    (cfg.RegistryURL ≠ "" → 0 < cfg.HeartbeatInterval → 0 < cfg.CallTimeout →
      0 ≤ cfg.MaxRetries → 0 ≤ cfg.RetryDelay →
      (cfg.RegistryType = "http" ∨ (cfg.RegistryType = "grpc" ∧ grpcNewOk = true)) →
      regOk (NewRegistrar inst (some cfg) grpcNewOk) = true) := by
  constructor
  · intro h
    simp only [NewRegistrar]
    split_ifs <;> first
      | rfl
      | (exfalso
         rcases h with h | h | h | h | ⟨h1, h2⟩ <;> simp_all <;> omega)
  · intro hurl hhb hct hmr hrd htype
    simp only [NewRegistrar]
    split_ifs <;> first
      | rfl
      | (exfalso; rcases htype with h | ⟨h, hg⟩ <;> simp_all <;> omega)

/-- C9 witness: the amended theorem applied at a configuration violating the
heartbeat-interval invariant (rejected) and at a fully valid configuration
(accepted). -/
theorem C9_amended_construction_validation_witness :
    regOk (NewRegistrar sampleInst (some cfgBadHeartbeat) true) = false ∧
    regOk (NewRegistrar sampleInst (some (mkConfig 3 1)) true) = true :=
  ⟨(C9_amended_construction_validation sampleInst cfgBadHeartbeat true).1
      (Or.inl (by decide)),
   (C9_amended_construction_validation sampleInst (mkConfig 3 1) true).2
      (by decide) (by decide) (by decide) (by decide) (by decide)
      (Or.inl (by decide))⟩

/-- C10: `NewRegistrar` rejects a nil configuration, and rejects any
configuration whose `RegistryURL` is the empty string, in both cases before
any transport is bound. -/
theorem C10_nil_config_and_empty_url (inst : ServiceInstance) (grpcNewOk : Bool)
    (cfg : Config) :
    regOk (NewRegistrar inst none grpcNewOk) = false ∧
    (cfg.RegistryURL = "" → regOk (NewRegistrar inst (some cfg) grpcNewOk) = false) := by
  refine ⟨rfl, fun h => ?_⟩
  simp [NewRegistrar, h, regOk]

/-- C10 witness: the theorem applied at the sample instance, a nil
configuration, and a concrete configuration with an empty registry
address. -/
theorem C10_nil_config_and_empty_url_witness :
    regOk (NewRegistrar sampleInst none true) = false ∧
    regOk (NewRegistrar sampleInst (some cfgEmptyURL) true) = false :=
  ⟨(C10_nil_config_and_empty_url sampleInst true cfgEmptyURL).1,
   (C10_nil_config_and_empty_url sampleInst true cfgEmptyURL).2 rfl⟩

end Flux
